import Mathlib

/-!
Shallow embedding of the `bt_manager` Python package (adapter.py, control.py,
device.py, interface.py, manager.py) for checking its specification.

The BlueZ daemon and the dbus client library are external collaborators: they
are modelled as oracles (`Daemon`, `PyEnv`).  Each embedded operation returns
its Python result (`Except PyErr _`) together with the list of D-Bus calls it
issued, and, where the source mutates object state, the updated state.
-/

deriving instance DecidableEq for Except

namespace BtManager

/-- A D-Bus value as handed around by the dbus Python bindings (flattened to
the shapes the claims exercise). -/
inductive DVal where
  | str (s : String)
  | int (n : Int)
  | boolean (b : Bool)
deriving Repr, DecidableEq

/-- The dbus type tag of a value, the result of Python `type(x)` on a dbus
value as used by `translate_to_dbus_type`. -/
inductive DType where
  | string
  | int32
  | boolean
deriving Repr, DecidableEq

/-- Python `type()` of a dbus value. -/
def dtypeOf : DVal → DType
  | .str _ => .string
  | .int _ => .int32
  | .boolean _ => .boolean

/-- External Python/dbus behaviours that `translate_to_dbus_type` invokes:
the dbus type constructors (e.g. `dbus.Boolean(x)`) and Python `eval` on a
string. -/
structure PyEnv where
  dbusCtor : DType → DVal → DVal
  evalStr : String → DVal

/-- interface.py, `translate_to_dbus_type(typeof, value)`:
`if isinstance(value, str) and typeof is not dbus.String: return
typeof(eval(value)) else: return typeof(value)`. -/
def translate_to_dbus_type (env : PyEnv) (typeof : DType) (value : DVal) : DVal :=
  match value with
  | .str s =>
      if typeof = DType.string then env.dbusCtor typeof (.str s)
      else env.dbusCtor typeof (env.evalStr s)
  | v => env.dbusCtor typeof v

/-- Whether an exception was raised by the remote daemon (re-raised by the
dbus library) or constructed locally by this repository / the Python
runtime. -/
inductive ErrOrigin where
  | daemon
  | local
deriving Repr, DecidableEq

/-- The Python exceptions the embedded operations can produce. -/
inductive PyErr where
  | dbusError (origin : ErrOrigin) (msg : String)
  | keyError (key : String)
  | attributeError (msg : String)
  | signalNameNotRecognised
  | genericError (msg : String)
deriving Repr, DecidableEq

/-- An exception constructed locally (anything that is not a daemon error
re-raised by the dbus library). -/
def isLocalErr : PyErr → Bool
  | .dbusError .daemon _ => false
  | _ => true

/-- One D-Bus call issued to the daemon or to the bus client library. -/
inductive Call where
  | getProperties
  | get (iface name : String)
  | getAll (iface : String)
  | setProperty (name : String) (value : DVal)
  | set (iface name : String) (value : DVal)
  | findDevice (devId : String)
  | listDevices
  | listAdapters
  | getManagedObjects
  | isConnectedCall
  | discoverServices (pattern : String)
  | busAddSignalReceiver (signal iface path : String)
  | busRemoveSignalReceiver (signal iface : String)
deriving Repr, DecidableEq

/-- Is this call a property write (SetProperty under BlueZ 4 /
Properties.Set under BlueZ 5)? -/
def Call.isSetCall : Call → Bool
  | .setProperty _ _ => true
  | .set _ _ _ => true
  | _ => false

/-- Python dict lookup on an association list (first matching key). -/
def dictGet {α : Type} : List (String × α) → String → Option α
  | [], _ => none
  | (k1, v) :: rest, k => if k1 = k then some v else dictGet rest k

/-- Python `d[k] = v` on an association list: replace the existing entry in
place, else append. -/
def dictSet {α : Type} : List (String × α) → String → α → List (String × α)
  | [], k, v => [(k, v)]
  | (k1, v1) :: rest, k, v =>
      if k1 = k then (k, v) :: rest else (k1, v1) :: dictSet rest k v

/-- Python `d.pop(k)` on an association list (drop the first entry with the
key). -/
def dictPop {α : Type} : List (String × α) → String → List (String × α)
  | [], _ => []
  | (k1, v1) :: rest, k => if k1 = k then rest else (k1, v1) :: dictPop rest k

/-- A remote D-Bus object: its interfaces, each with its property
dictionary. -/
structure RemoteObject where
  interfaces : List (String × List (String × DVal))
deriving Repr, DecidableEq

/-- The daemon oracle: the ObjectManager tree plus the BlueZ 4 method
results the embedded operations forward to.  A BlueZ 4 oracle returning
`.error msg` models the daemon raising a DBusException with that message. -/
structure Daemon where
  managed : List (String × RemoteObject)
  findDevice4 : String → Except String String
  listDevices4 : Except String (List String)
  listAdapters4 : Except String (List String)
  discoverServices4 : String → Except String (List (Nat × String))
  isConnected4 : Except String DVal

/-- Daemon reply to a property-dictionary read (GetProperties / GetAll) on an
object path and interface. -/
def Daemon.objectProps (d : Daemon) (path iface : String) :
    Except PyErr (List (String × DVal)) :=
  match dictGet d.managed path with
  | none => .error (.dbusError .daemon "org.freedesktop.DBus.Error.UnknownObject")
  | some o =>
      match dictGet o.interfaces iface with
      | none => .error (.dbusError .daemon "org.freedesktop.DBus.Error.UnknownInterface")
      | some ps => .ok ps

/-- Daemon reply to `org.freedesktop.DBus.Properties.Get(iface, name)`. -/
def Daemon.propsGet (d : Daemon) (path iface name : String) : Except PyErr DVal :=
  match d.objectProps path iface with
  | .error e => .error e
  | .ok ps =>
      match dictGet ps name with
      | some v => .ok v
      | none => .error (.dbusError .daemon "org.freedesktop.DBus.Error.InvalidArgs")

/-! Interface-name constants from the source. -/

def BLUEZ4_VERSION : ℚ := 4
def ADAPTER_INTERFACE_BLUEZ4 : String := "org.bluez.Adapter"
def ADAPTER_INTERFACE_BLUEZ5 : String := "org.bluez.Adapter1"
def DEVICE_INTERFACE_BLUEZ4 : String := "org.bluez.Device"
def DEVICE_INTERFACE_BLUEZ5 : String := "org.bluez.Device1"
def MEDIA_CONTROL_INTERFACE_BLUEZ5 : String := "org.bluez.MediaControl1"
def CONTROL_INTERFACE_BLUEZ4 : String := "org.bluez.Control"
def MANAGER_INTERFACE_BLUEZ4 : String := "org.bluez.Manager"
def DBUS_OBJ_MANAGER : String := "org.freedesktop.DBus.ObjectManager"

/-- The process-wide cached daemon version (`BTSimpleInterface._version`). -/
structure VersionCache where
  version : Option ℚ
deriving Repr, DecidableEq

/-- interface.py, `BTSimpleInterface.get_version`: return the cached version
if set, else determine it (the `bluetoothd --version` probe is the external
input) and cache it. -/
def get_version (probe : ℚ) (c : VersionCache) : ℚ × VersionCache :=
  match c.version with
  | some v => (v, c)
  | none => (probe, { version := some probe })

/-- interface.py, class `Signal`: the stored wrapper for one subscription. -/
structure Signal where
  signal : String
  user_callback : Nat
  user_arg : Nat
deriving Repr, DecidableEq

/-- The mutable per-object bookkeeping of `BTInterface`: the `_signals` dict
and the `_signal_names` registration list. -/
structure BTIfaceState where
  signals : List (String × Signal)
  signal_names : List String
deriving Repr, DecidableEq

/-- interface.py, `BTInterface.add_signal_receiver`: store a `Signal` wrapper
under the signal name and subscribe on the bus, or raise
`BTSignalNameNotRecognisedException` if the name is not registered. -/
def add_signal_receiver (st : BTIfaceState) (dbusAddr path : String)
    (callback_fn : Nat) (signal : String) (user_arg : Nat) (addr : Option String) :
    Except PyErr Unit × BTIfaceState × List Call :=
  if signal ∈ st.signal_names then
    let a := addr.getD dbusAddr
    let s : Signal := { signal := signal, user_callback := callback_fn, user_arg := user_arg }
    (.ok (), { st with signals := dictSet st.signals signal s },
      [Call.busAddSignalReceiver signal a path])
  else
    (.error .signalNameNotRecognised, st, [])

/-- interface.py, `BTInterface.remove_signal_receiver`: unsubscribe and drop
the stored entry if present, do nothing if absent, raise
`BTSignalNameNotRecognisedException` if the name is not registered. -/
def remove_signal_receiver (st : BTIfaceState) (dbusAddr : String) (signal : String) :
    Except PyErr Unit × BTIfaceState × List Call :=
  if signal ∈ st.signal_names then
    match dictGet st.signals signal with
    | some _ =>
        (.ok (), { st with signals := dictPop st.signals signal },
          [Call.busRemoveSignalReceiver signal dbusAddr])
    | none => (.ok (), st, [])
  else
    (.error .signalNameNotRecognised, st, [])

/-- Result of a `get_property` call: a single value (named read) or the full
property dictionary (unnamed read). -/
inductive PropResult where
  | value (v : DVal)
  | dict (ps : List (String × DVal))
deriving Repr, DecidableEq

/-- What `BTAdapter.__init__` establishes: the interface address handed to
`BTInterface.__init__`, the registered signal names, and the `_properties`
key list enumerated from the daemon. -/
structure AdapterInit where
  addr : String
  signal_names : List String
  properties : List String
deriving Repr, DecidableEq

/-- adapter.py, `BTAdapter.__init__`: branch on `get_version() <=
BLUEZ4_VERSION`; BlueZ 4 opens 'org.bluez.Adapter', enumerates
`GetProperties()` and registers the BlueZ 4 signals; BlueZ 5 opens
'org.bluez.Adapter1', registers the ObjectManager signals and enumerates
`Properties.GetAll('org.bluez.Adapter1')`. -/
def adapter_init (v : ℚ) (d : Daemon) (path : String) :
    Except PyErr AdapterInit × List Call :=
  if v ≤ BLUEZ4_VERSION then
    match d.objectProps path ADAPTER_INTERFACE_BLUEZ4 with
    | .error e => (.error e, [Call.getProperties])
    | .ok ps =>
        (.ok { addr := ADAPTER_INTERFACE_BLUEZ4,
               signal_names := ["PropertyChanged", "DeviceFound", "DeviceRemoved",
                                "DeviceCreated", "DeviceDisappeared"],
               properties := ps.map Prod.fst },
         [Call.getProperties])
  else
    match d.objectProps path ADAPTER_INTERFACE_BLUEZ5 with
    | .error e => (.error e, [Call.getAll ADAPTER_INTERFACE_BLUEZ5])
    | .ok ps =>
        (.ok { addr := ADAPTER_INTERFACE_BLUEZ5,
               signal_names := ["InterfacesAdded", "InterfacesRemoved",
                                "PropertiesChanged"],
               properties := ps.map Prod.fst },
         [Call.getAll ADAPTER_INTERFACE_BLUEZ5])

/-- adapter.py, `BTAdapter.get_property(name=None)`: BlueZ 4 forwards
`GetProperties()` (indexing by `name` when given, a missing key being a
Python KeyError); BlueZ 5 forwards `Properties.Get('org.bluez.Adapter1',
name)` or `Properties.GetAll('org.bluez.Adapter1')`. -/
def adapter_get_property (v : ℚ) (d : Daemon) (path : String) (name : Option String) :
    Except PyErr PropResult × List Call :=
  if v ≤ BLUEZ4_VERSION then
    match d.objectProps path ADAPTER_INTERFACE_BLUEZ4 with
    | .error e => (.error e, [Call.getProperties])
    | .ok ps =>
        match name with
        | some n =>
            match dictGet ps n with
            | some val => (.ok (.value val), [Call.getProperties])
            | none => (.error (.keyError n), [Call.getProperties])
        | none => (.ok (.dict ps), [Call.getProperties])
  else
    match name with
    | some n =>
        match d.propsGet path ADAPTER_INTERFACE_BLUEZ5 n with
        | .ok val => (.ok (.value val), [Call.get ADAPTER_INTERFACE_BLUEZ5 n])
        | .error e => (.error e, [Call.get ADAPTER_INTERFACE_BLUEZ5 n])
    | none =>
        match d.objectProps path ADAPTER_INTERFACE_BLUEZ5 with
        | .ok ps => (.ok (.dict ps), [Call.getAll ADAPTER_INTERFACE_BLUEZ5])
        | .error e => (.error e, [Call.getAll ADAPTER_INTERFACE_BLUEZ5])

/-- adapter.py, `BTAdapter.set_property(name, value)`: read the current value
via `get_property(name)` to learn its dbus type, then forward one
`SetProperty` (BlueZ 4) or `Properties.Set('org.bluez.Adapter1', ...)`
(BlueZ 5) carrying `translate_to_dbus_type(typeof, value)`. -/
def adapter_set_property (env : PyEnv) (v : ℚ) (d : Daemon) (path : String)
    (name : String) (value : DVal) : Except PyErr Unit × List Call :=
  if v ≤ BLUEZ4_VERSION then
    match adapter_get_property v d path (some name) with
    | (.ok (.value cur), tr) =>
        (.ok (), tr ++ [Call.setProperty name
          (translate_to_dbus_type env (dtypeOf cur) value)])
    | (.ok (.dict _), tr) => (.ok (), tr)
    | (.error e, tr) => (.error e, tr)
  else
    match adapter_get_property v d path (some name) with
    | (.ok (.value cur), tr) =>
        (.ok (), tr ++ [Call.set ADAPTER_INTERFACE_BLUEZ5 name
          (translate_to_dbus_type env (dtypeOf cur) value)])
    | (.ok (.dict _), tr) => (.ok (), tr)
    | (.error e, tr) => (.error e, tr)

/-- adapter.py, the BlueZ 5 loop body of `find_device`: scan the managed
objects in order for the first one exposing 'org.bluez.Device1' whose
`property` entry equals `dev_id`; indexing a device dictionary without the
`property` key is a Python KeyError. -/
def findDeviceScan (property dev_id : String) :
    List (String × RemoteObject) → Except PyErr (Option String)
  | [] => .ok none
  | (key, obj) :: rest =>
      match dictGet obj.interfaces DEVICE_INTERFACE_BLUEZ5 with
      | none => findDeviceScan property dev_id rest
      | some ps =>
          match dictGet ps property with
          | none => .error (.keyError property)
          | some val =>
              if val = DVal.str dev_id then .ok (some key)
              else findDeviceScan property dev_id rest

/-- adapter.py, `BTAdapter.find_device(dev_id, property='Address')`: BlueZ 4
forwards `FindDevice(dev_id)`; BlueZ 5 issues `GetManagedObjects()` and scans
the reply client-side, raising `DBusException('org.bluez.Error.DoesNotExist')`
locally when no object matches. -/
def adapter_find_device (v : ℚ) (d : Daemon) (dev_id : String)
    (property : String) : Except PyErr String × List Call :=
  if v ≤ BLUEZ4_VERSION then
    match d.findDevice4 dev_id with
    | .ok p => (.ok p, [Call.findDevice dev_id])
    | .error m => (.error (.dbusError .daemon m), [Call.findDevice dev_id])
  else
    match findDeviceScan property dev_id d.managed with
    | .ok (some key) => (.ok key, [Call.getManagedObjects])
    | .ok none =>
        (.error (.dbusError .local "org.bluez.Error.DoesNotExist"),
         [Call.getManagedObjects])
    | .error e => (.error e, [Call.getManagedObjects])

/-- adapter.py, the BlueZ 5 accumulation loop of `list_devices`: keep the
paths of managed objects exposing 'org.bluez.Device1'. -/
def listDevicesScan : List (String × RemoteObject) → List String
  | [] => []
  | (key, obj) :: rest =>
      if (dictGet obj.interfaces DEVICE_INTERFACE_BLUEZ5).isSome then
        key :: listDevicesScan rest
      else
        listDevicesScan rest

/-- adapter.py, `BTAdapter.list_devices`: BlueZ 4 forwards `ListDevices()`;
BlueZ 5 issues `GetManagedObjects()` and filters the reply client-side. -/
def adapter_list_devices (v : ℚ) (d : Daemon) :
    Except PyErr (List String) × List Call :=
  if v ≤ BLUEZ4_VERSION then
    match d.listDevices4 with
    | .ok xs => (.ok xs, [Call.listDevices])
    | .error m => (.error (.dbusError .daemon m), [Call.listDevices])
  else
    (.ok (listDevicesScan d.managed), [Call.getManagedObjects])

/-- device.py, the interface address `BTDevice.__init__` hands to
`BTGenericDevice.__init__`. -/
def btdevice_init_addr (v : ℚ) : String :=
  if v ≤ BLUEZ4_VERSION then DEVICE_INTERFACE_BLUEZ4 else DEVICE_INTERFACE_BLUEZ5

/-- device.py, `BTDevice.discover_services(pattern)`: BlueZ 4 forwards
`DiscoverServices(pattern)`; BlueZ 5 raises a locally constructed
`Exception('Not handled with bluez 5')`. -/
def device_discover_services (v : ℚ) (d : Daemon) (pattern : String) :
    Except PyErr (List (Nat × String)) × List Call :=
  if v ≤ BLUEZ4_VERSION then
    match d.discoverServices4 pattern with
    | .ok recs => (.ok recs, [Call.discoverServices pattern])
    | .error m => (.error (.dbusError .daemon m), [Call.discoverServices pattern])
  else
    (.error (.genericError "Not handled with bluez 5"), [])

/-- control.py, the interface address `BTControl.__init__` hands to
`BTGenericDevice.__init__`. -/
def btcontrol_init_addr (v : ℚ) : String :=
  if v ≤ BLUEZ4_VERSION then CONTROL_INTERFACE_BLUEZ4 else MEDIA_CONTROL_INTERFACE_BLUEZ5

/-- control.py, `BTControl._init_properties` (BlueZ 5): enumerate the
`_properties` key list from `Properties.GetAll('org.bluez.MediaControl1')`. -/
def control_init_properties (d : Daemon) (path : String) :
    Except PyErr (List String) × List Call :=
  match d.objectProps path MEDIA_CONTROL_INTERFACE_BLUEZ5 with
  | .ok ps => (.ok (ps.map Prod.fst), [Call.getAll MEDIA_CONTROL_INTERFACE_BLUEZ5])
  | .error e => (.error e, [Call.getAll MEDIA_CONTROL_INTERFACE_BLUEZ5])

/-- control.py, `BTControl.get_property(name=None)`: BlueZ 4 raises
`Exception('Not handled with bluez 4')`; BlueZ 5 forwards
`Properties.Get`/`GetAll` against `self.DEVICE_INTERFACE_BLUEZ5`
('org.bluez.Device1', inherited from BTGenericDevice). -/
def control_get_property (v : ℚ) (d : Daemon) (path : String)
    (name : Option String) : Except PyErr PropResult × List Call :=
  if v ≤ BLUEZ4_VERSION then
    (.error (.genericError "Not handled with bluez 4"), [])
  else
    match name with
    | some n =>
        match d.propsGet path DEVICE_INTERFACE_BLUEZ5 n with
        | .ok val => (.ok (.value val), [Call.get DEVICE_INTERFACE_BLUEZ5 n])
        | .error e => (.error e, [Call.get DEVICE_INTERFACE_BLUEZ5 n])
    | none =>
        match d.objectProps path DEVICE_INTERFACE_BLUEZ5 with
        | .ok ps => (.ok (.dict ps), [Call.getAll DEVICE_INTERFACE_BLUEZ5])
        | .error e => (.error e, [Call.getAll DEVICE_INTERFACE_BLUEZ5])

/-- control.py, `BTControl.is_connected`: BlueZ 4 returns the daemon's
`IsConnected()` result; BlueZ 5 calls `self.get_property('Connected')`,
discards the result and falls off the end (Python returns None, modelled as
`.ok none`). -/
def control_is_connected (v : ℚ) (d : Daemon) (path : String) :
    Except PyErr (Option DVal) × List Call :=
  if v ≤ BLUEZ4_VERSION then
    match d.isConnected4 with
    | .ok val => (.ok (some val), [Call.isConnectedCall])
    | .error m => (.error (.dbusError .daemon m), [Call.isConnectedCall])
  else
    match control_get_property v d path (some "Connected") with
    | (.ok _, tr) => (.ok none, tr)
    | (.error e, tr) => (.error e, tr)

/-- manager.py, the interface address `BTManager.__init__` hands to
`BTInterface.__init__`. -/
def btmanager_init_addr (v : ℚ) : String :=
  if v ≤ BLUEZ4_VERSION then MANAGER_INTERFACE_BLUEZ4 else DBUS_OBJ_MANAGER

/-- manager.py, the BlueZ 5 accumulation loop of `list_adapters`: keep the
paths of managed objects exposing 'org.bluez.Adapter1'. -/
def listAdaptersScan : List (String × RemoteObject) → List String
  | [] => []
  | (key, obj) :: rest =>
      if (dictGet obj.interfaces ADAPTER_INTERFACE_BLUEZ5).isSome then
        key :: listAdaptersScan rest
      else
        listAdaptersScan rest

/-- manager.py, `BTManager.list_adapters`: BlueZ 4 forwards `ListAdapters()`;
BlueZ 5 issues `GetManagedObjects()` and filters client-side. -/
def manager_list_adapters (v : ℚ) (d : Daemon) :
    Except PyErr (List String) × List Call :=
  if v ≤ BLUEZ4_VERSION then
    match d.listAdapters4 with
    | .ok xs => (.ok xs, [Call.listAdapters])
    | .error m => (.error (.dbusError .daemon m), [Call.listAdapters])
  else
    (.ok (listAdaptersScan d.managed), [Call.getManagedObjects])

/-- manager.py, `BTManager.get_property(name=None)`: BlueZ 4 forwards
`GetProperties()` on 'org.bluez.Manager' at '/'; BlueZ 5 evaluates
`self.list_adapters()` and then executes `adapters.Adapters = ...` on the
fresh plain dict `adapters = {}`, an attribute assignment that raises
AttributeError on every call. -/
def manager_get_property (v : ℚ) (d : Daemon) (name : Option String) :
    Except PyErr PropResult × List Call :=
  if v ≤ BLUEZ4_VERSION then
    match d.objectProps "/" MANAGER_INTERFACE_BLUEZ4 with
    | .error e => (.error e, [Call.getProperties])
    | .ok ps =>
        match name with
        | some n =>
            match dictGet ps n with
            | some val => (.ok (.value val), [Call.getProperties])
            | none => (.error (.keyError n), [Call.getProperties])
        | none => (.ok (.dict ps), [Call.getProperties])
  else
    match manager_list_adapters v d with
    | (.ok _, tr) =>
        (.error (.attributeError "dict object has no attribute Adapters"), tr)
    | (.error e, tr) => (.error e, tr)

/-- The instance `__dict__` of a `BTInterface` object as `__getattr__` sees
it: the plain attributes, plus the `_properties` entry when it has been
assigned. -/
structure ObjDict where
  attrs : List (String × DVal)
  properties : Option (List String)
deriving Repr, DecidableEq

/-- What `BTInterface.__getattr__` produces. -/
inductive AttrResult where
  | value (v : DVal)
  | propertiesList (ps : List String)
  | propertyRead (name : String)
  | pyNone
deriving Repr, DecidableEq

/-- interface.py, `BTInterface.__getattr__(name)`: return `__dict__[name]` if
present; else, if `_properties` is in `__dict__` and `name` is listed there,
return `self.get_property(name)`; else fall off the end (Python returns
None). -/
def btinterface_getattr (o : ObjDict) (name : String) : AttrResult :=
  match dictGet o.attrs name with
  | some v => .value v
  | none =>
      match o.properties with
      | some ps =>
          if name = "_properties" then .propertiesList ps
          else if name ∈ ps then .propertyRead name
          else .pyNone
      | none => .pyNone

/-- Number of entries of an association list carrying a given key. -/
def countKey {α : Type} (m : List (String × α)) (k : String) : Nat :=
  (m.filter (fun p => p.1 = k)).length

/-! Concrete fixtures used by witnesses and counterexamples. -/

/-- A remote adapter object exposing both interface generations. -/
def adapterObjW : RemoteObject :=
  { interfaces :=
      [(ADAPTER_INTERFACE_BLUEZ4,
          [("Address", DVal.str "00:11:22:33:44:55"), ("Powered", DVal.boolean true)]),
       (ADAPTER_INTERFACE_BLUEZ5,
          [("Address", DVal.str "00:11:22:33:44:55"), ("Powered", DVal.boolean true)])] }

/-- A remote device object that also exposes a media-control interface; note
that 'Player' exists on 'org.bluez.MediaControl1' but not on
'org.bluez.Device1'. -/
def ctlObjW : RemoteObject :=
  { interfaces :=
      [(DEVICE_INTERFACE_BLUEZ5,
          [("Address", DVal.str "AA:AA:AA:AA:AA:AA"), ("Connected", DVal.boolean true)]),
       (MEDIA_CONTROL_INTERFACE_BLUEZ5,
          [("Connected", DVal.boolean true),
           ("Player", DVal.str "/org/bluez/hci0/dev_AA/player0")])] }

/-- A plain remote device object. -/
def devObjW : RemoteObject :=
  { interfaces :=
      [(DEVICE_INTERFACE_BLUEZ5,
          [("Address", DVal.str "BB:BB:BB:BB:BB:BB"), ("Connected", DVal.boolean false)])] }

/-- A concrete daemon with one adapter and two devices. -/
def dW : Daemon :=
  { managed :=
      [("/org/bluez/hci0", adapterObjW),
       ("/org/bluez/hci0/dev_AA", ctlObjW),
       ("/org/bluez/hci0/dev_BB", devObjW)],
    findDevice4 := fun _ => .error "org.bluez.Error.DoesNotExist",
    listDevices4 := .ok [],
    listAdapters4 := .ok ["/org/bluez/985/hci0"],
    discoverServices4 := fun _ => .ok [],
    isConnected4 := .ok (DVal.boolean true) }

/-- A concrete daemon with an empty object tree. -/
def dEmpty : Daemon :=
  { managed := [],
    findDevice4 := fun _ => .error "org.bluez.Error.DoesNotExist",
    listDevices4 := .ok [],
    listAdapters4 := .ok [],
    discoverServices4 := fun _ => .ok [],
    isConnected4 := .ok (DVal.boolean true) }

/-- A concrete external-Python environment. -/
def envW : PyEnv :=
  { dbusCtor := fun _ v => v, evalStr := fun s => DVal.str s }

/-- The constructor record `adapter_init` produces for `dW` under BlueZ 5. -/
def adapterInitW : AdapterInit :=
  { addr := ADAPTER_INTERFACE_BLUEZ5,
    signal_names := ["InterfacesAdded", "InterfacesRemoved", "PropertiesChanged"],
    properties := ["Address", "Powered"] }

/-- Bookkeeping state with no registered signal names. -/
def stEmpty : BTIfaceState := { signals := [], signal_names := [] }

/-- Bookkeeping state with 'PropertyChanged' registered but never added. -/
def stReg : BTIfaceState := { signals := [], signal_names := ["PropertyChanged"] }

/-- Bookkeeping state with an existing subscription for 'PropertyChanged'. -/
def stPre : BTIfaceState :=
  { signals := [("PropertyChanged",
      { signal := "PropertyChanged", user_callback := 0, user_arg := 0 })],
    signal_names := ["PropertyChanged"] }

/-! Helper lemmas about the Python-dict model and the BlueZ 5 scan loops. -/

theorem dictGet_dictSet_self {α : Type} (m : List (String × α)) (k : String) (v : α) :
    dictGet (dictSet m k v) k = some v := by
  induction m with
  | nil => simp [dictSet, dictGet]
  | cons hd tl ih =>
      obtain ⟨k1, v1⟩ := hd
      by_cases h : k1 = k
      · simp [dictSet, dictGet, h]
      · simp [dictSet, dictGet, h, ih]

theorem dictGet_eq_none_iff {α : Type} (m : List (String × α)) (k : String) :
    dictGet m k = none ↔ k ∉ m.map Prod.fst := by
  induction m with
  | nil => simp [dictGet]
  | cons hd tl ih =>
      obtain ⟨k1, v1⟩ := hd
      by_cases h : k1 = k
      · simp [dictGet, h]
      · simp [dictGet, h, ih, Ne.symm h]

theorem countKey_eq_zero_of_none {α : Type} (m : List (String × α)) (k : String)
    (h : dictGet m k = none) : countKey m k = 0 := by
  induction m with
  | nil => simp [countKey]
  | cons hd tl ih =>
      obtain ⟨k1, v1⟩ := hd
      by_cases hk : k1 = k
      · simp [dictGet, hk] at h
      · simp [dictGet, hk] at h
        simp [countKey, hk] at ih ⊢
        exact ih h

theorem dictSet_of_none {α : Type} (m : List (String × α)) (k : String) (v : α)
    (h : dictGet m k = none) : dictSet m k v = m ++ [(k, v)] := by
  induction m with
  | nil => simp [dictSet]
  | cons hd tl ih =>
      obtain ⟨k1, v1⟩ := hd
      by_cases hk : k1 = k
      · simp [dictGet, hk] at h
      · simp [dictGet, hk] at h
        simp [dictSet, hk, ih h]

theorem dictPop_of_none {α : Type} (m : List (String × α)) (k : String)
    (h : dictGet m k = none) : dictPop m k = m := by
  induction m with
  | nil => simp [dictPop]
  | cons hd tl ih =>
      obtain ⟨k1, v1⟩ := hd
      by_cases hk : k1 = k
      · simp [dictGet, hk] at h
      · simp [dictGet, hk] at h
        simp [dictPop, hk, ih h]

theorem dictPop_dictSet {α : Type} (m : List (String × α)) (k : String) (v : α) :
    dictPop (dictSet m k v) k = dictPop m k := by
  induction m with
  | nil => simp [dictSet, dictPop]
  | cons hd tl ih =>
      obtain ⟨k1, v1⟩ := hd
      by_cases hk : k1 = k
      · simp [dictSet, dictPop, hk]
      · simp [dictSet, dictPop, hk, ih]

theorem dictSet_dictSet {α : Type} (m : List (String × α)) (k : String) (v w : α) :
    dictSet (dictSet m k v) k w = dictSet m k w := by
  induction m with
  | nil => simp [dictSet]
  | cons hd tl ih =>
      obtain ⟨k1, v1⟩ := hd
      by_cases hk : k1 = k
      · simp [dictSet, hk]
      · simp [dictSet, hk, ih]

theorem countKey_dictSet {α : Type} (m : List (String × α)) (k : String) (v : α)
    (hnd : (m.map Prod.fst).Nodup) : countKey (dictSet m k v) k = 1 := by
  induction m with
  | nil => simp [dictSet, countKey]
  | cons hd tl ih =>
      obtain ⟨k1, v1⟩ := hd
      simp only [List.map_cons, List.nodup_cons] at hnd
      by_cases hk : k1 = k
      · subst hk
        have h0 : countKey tl k1 = 0 :=
          countKey_eq_zero_of_none tl k1 ((dictGet_eq_none_iff tl k1).mpr hnd.1)
        simp [dictSet, countKey] at h0 ⊢
        exact h0
      · simp [dictSet, countKey, hk] at ih ⊢
        exact ih hnd.2

theorem mem_listDevicesScan (objs : List (String × RemoteObject)) (p : String) :
    p ∈ listDevicesScan objs ↔
      ∃ o, (p, o) ∈ objs ∧ (dictGet o.interfaces DEVICE_INTERFACE_BLUEZ5).isSome = true := by
  induction objs with
  | nil => simp [listDevicesScan]
  | cons hd tl ih =>
      obtain ⟨key, obj⟩ := hd
      by_cases h : (dictGet obj.interfaces DEVICE_INTERFACE_BLUEZ5).isSome = true
      · simp only [listDevicesScan, if_pos h, List.mem_cons, ih]
        constructor
        · rintro (rfl | ⟨o, ho, hs⟩)
          · exact ⟨obj, Or.inl rfl, h⟩
          · exact ⟨o, Or.inr ho, hs⟩
        · rintro ⟨o, (ho | ho), hs⟩
          · exact Or.inl (congrArg Prod.fst ho)
          · exact Or.inr ⟨o, ho, hs⟩
      · simp only [listDevicesScan, if_neg h, ih]
        constructor
        · rintro ⟨o, ho, hs⟩
          exact ⟨o, List.mem_cons_of_mem _ ho, hs⟩
        · rintro ⟨o, ho, hs⟩
          rcases List.mem_cons.mp ho with heq | ho
          · cases heq
            exact absurd hs h
          · exact ⟨o, ho, hs⟩

theorem findDeviceScan_of_no_device (property dev_id : String)
    (objs : List (String × RemoteObject))
    (h : ∀ po ∈ objs, dictGet po.2.interfaces DEVICE_INTERFACE_BLUEZ5 = none) :
    findDeviceScan property dev_id objs = Except.ok none := by
  induction objs with
  | nil => simp [findDeviceScan]
  | cons hd tl ih =>
      obtain ⟨key, obj⟩ := hd
      have h0 := h (key, obj) (List.mem_cons_self _ _)
      simp only [findDeviceScan]
      rw [h0]
      exact ih (fun po hpo => h po (List.mem_cons_of_mem _ hpo))

/-- Claim C1, counterexample: the claim says no operation constructs and
raises an exception of its own, yet `add_signal_receiver` with an
unregistered signal name raises a locally constructed
`BTSignalNameNotRecognisedException`, `BTAdapter.find_device` under BlueZ 5
with no matching managed object raises a locally constructed
`DBusException('org.bluez.Error.DoesNotExist')`, and
`BTDevice.discover_services` under BlueZ 5 raises a locally constructed
`Exception('Not handled with bluez 5')`. -/
theorem C1_counterexample :
    (add_signal_receiver stEmpty ADAPTER_INTERFACE_BLUEZ4 "/org/bluez/hci0" 0
        "PropertyChanged" 0 none).1 = Except.error PyErr.signalNameNotRecognised
  ∧ (adapter_find_device 5 dW "CC:CC:CC:CC:CC:CC" "Address").1
      = Except.error (PyErr.dbusError ErrOrigin.local "org.bluez.Error.DoesNotExist")
  ∧ (device_discover_services 5 dW "").1
      = Except.error (PyErr.genericError "Not handled with bluez 5")
  ∧ isLocalErr PyErr.signalNameNotRecognised = true
  ∧ isLocalErr (PyErr.dbusError ErrOrigin.local "org.bluez.Error.DoesNotExist") = true
  ∧ isLocalErr (PyErr.genericError "Not handled with bluez 5") = true := by
  decide

/-- Claim C1, amended: forwarded BlueZ 4 calls re-raise the daemon's
exception unmodified, but `add_signal_receiver` and
`remove_signal_receiver` with an unregistered signal name raise a locally
constructed `BTSignalNameNotRecognisedException`, `BTAdapter.find_device`
under BlueZ 5 raises a locally constructed
`DBusException('org.bluez.Error.DoesNotExist')` when no managed object
matches, and `BTDevice.discover_services` under BlueZ 5 always raises a
locally constructed `Exception('Not handled with bluez 5')`. -/
theorem C1_local_raises :
    (∀ st a p cb sig ua ad, sig ∉ st.signal_names →
        (add_signal_receiver st a p cb sig ua ad).1
          = Except.error PyErr.signalNameNotRecognised)
  ∧ (∀ st a sig, sig ∉ st.signal_names →
        (remove_signal_receiver st a sig).1
          = Except.error PyErr.signalNameNotRecognised)
  ∧ (∀ v d devId prop, BLUEZ4_VERSION < v →
        (∀ po ∈ d.managed, dictGet po.2.interfaces DEVICE_INTERFACE_BLUEZ5 = none) →
        (adapter_find_device v d devId prop).1
          = Except.error (PyErr.dbusError ErrOrigin.local "org.bluez.Error.DoesNotExist"))
  ∧ (∀ v d pat, BLUEZ4_VERSION < v →
        (device_discover_services v d pat).1
          = Except.error (PyErr.genericError "Not handled with bluez 5"))
  ∧ (∀ v d devId prop m, v ≤ BLUEZ4_VERSION → d.findDevice4 devId = Except.error m →
        (adapter_find_device v d devId prop).1
          = Except.error (PyErr.dbusError ErrOrigin.daemon m)) := by
  refine ⟨?_, ?_, ?_, ?_, ?_⟩
  · intro st a p cb sig ua ad h
    simp [add_signal_receiver, h]
  · intro st a sig h
    simp [remove_signal_receiver, h]
  · intro v d devId prop hv hnone
    have hscan := findDeviceScan_of_no_device prop devId d.managed hnone
    unfold adapter_find_device
    rw [if_neg (not_le.mpr hv), hscan]
  · intro v d pat hv
    unfold device_discover_services
    rw [if_neg (not_le.mpr hv)]
  · intro v d devId prop m hv hfd
    unfold adapter_find_device
    rw [if_pos hv, hfd]

/-- Claim C1, witness: the amended theorem applied at concrete inputs. -/
theorem C1_local_raises_witness :
    ((add_signal_receiver stEmpty "a" "p" 0 "PropertyChanged" 0 none).1
        = Except.error PyErr.signalNameNotRecognised)
  ∧ ((adapter_find_device 5 dEmpty "AA:AA:AA:AA:AA:AA" "Address").1
        = Except.error (PyErr.dbusError ErrOrigin.local "org.bluez.Error.DoesNotExist"))
  ∧ ((device_discover_services 5 dEmpty "").1
        = Except.error (PyErr.genericError "Not handled with bluez 5"))
  ∧ ((adapter_find_device 4 dEmpty "AA:AA:AA:AA:AA:AA" "Address").1
        = Except.error (PyErr.dbusError ErrOrigin.daemon "org.bluez.Error.DoesNotExist")) :=
  ⟨C1_local_raises.1 stEmpty "a" "p" 0 "PropertyChanged" 0 none (by decide),
   C1_local_raises.2.2.1 5 dEmpty "AA:AA:AA:AA:AA:AA" "Address" (by norm_num [BLUEZ4_VERSION])
     (by intro po hpo; simp [dEmpty] at hpo),
   C1_local_raises.2.2.2.1 5 dEmpty "" (by norm_num [BLUEZ4_VERSION]),
   C1_local_raises.2.2.2.2 4 dEmpty "AA:AA:AA:AA:AA:AA" "Address" "org.bluez.Error.DoesNotExist"
     (by norm_num [BLUEZ4_VERSION]) rfl⟩

/-- Claim C2, counterexample: under BlueZ 5 `list_devices` and `find_device`
are not single forwarded daemon calls returning the daemon's reply; the one
call they make is `GetManagedObjects`, and the returned value is computed by
client-side filtering/search over that reply (here the reply holds three
object paths but `list_devices` returns only the two device paths). -/
theorem C2_counterexample :
    (adapter_list_devices 5 dW).1
      = Except.ok ["/org/bluez/hci0/dev_AA", "/org/bluez/hci0/dev_BB"]
  ∧ (adapter_list_devices 5 dW).2 = [Call.getManagedObjects]
  ∧ dW.managed.map Prod.fst
      = ["/org/bluez/hci0", "/org/bluez/hci0/dev_AA", "/org/bluez/hci0/dev_BB"]
  ∧ (adapter_list_devices 5 dW).1 ≠ Except.ok (dW.managed.map Prod.fst)
  ∧ (adapter_find_device 5 dW "BB:BB:BB:BB:BB:BB" "Address").1
      = Except.ok "/org/bluez/hci0/dev_BB"
  ∧ (adapter_find_device 5 dW "BB:BB:BB:BB:BB:BB" "Address").2
      = [Call.getManagedObjects] := by
  decide

/-- Claim C2, amended: under BlueZ 4 `find_device` and `list_devices` are
single forwarded daemon calls, but under BlueZ 5 each issues exactly one
`GetManagedObjects` call and computes its result client-side:
`list_devices` returns the paths of managed objects exposing
'org.bluez.Device1', and `find_device` scans the reply in order and returns
the first matching path. -/
theorem C2_client_side_scan :
    (∀ v d, BLUEZ4_VERSION < v →
        (adapter_list_devices v d).2 = [Call.getManagedObjects]
      ∧ (adapter_list_devices v d).1 = Except.ok (listDevicesScan d.managed)
      ∧ ∀ p, p ∈ listDevicesScan d.managed ↔
          ∃ o, (p, o) ∈ d.managed
            ∧ (dictGet o.interfaces DEVICE_INTERFACE_BLUEZ5).isSome = true)
  ∧ (∀ v d devId prop, BLUEZ4_VERSION < v →
        (adapter_find_device v d devId prop).2 = [Call.getManagedObjects])
  ∧ (∀ v d devId prop key, BLUEZ4_VERSION < v →
        findDeviceScan prop devId d.managed = Except.ok (some key) →
        (adapter_find_device v d devId prop).1 = Except.ok key)
  ∧ (∀ v d devId prop, v ≤ BLUEZ4_VERSION →
        (adapter_find_device v d devId prop).2 = [Call.findDevice devId]
      ∧ (adapter_list_devices v d).2 = [Call.listDevices]) := by
  refine ⟨?_, ?_, ?_, ?_⟩
  · intro v d hv
    refine ⟨?_, ?_, fun p => mem_listDevicesScan d.managed p⟩
    · unfold adapter_list_devices
      rw [if_neg (not_le.mpr hv)]
    · unfold adapter_list_devices
      rw [if_neg (not_le.mpr hv)]
  · intro v d devId prop hv
    unfold adapter_find_device
    rw [if_neg (not_le.mpr hv)]
    rcases findDeviceScan prop devId d.managed with e | o
    · rfl
    · rcases o with _ | key <;> rfl
  · intro v d devId prop key hv hscan
    unfold adapter_find_device
    rw [if_neg (not_le.mpr hv), hscan]
  · intro v d devId prop hv
    constructor
    · unfold adapter_find_device
      rw [if_pos hv]
      rcases d.findDevice4 devId with m | pth <;> rfl
    · unfold adapter_list_devices
      rw [if_pos hv]
      rcases d.listDevices4 with m | xs <;> rfl

/-- Claim C2, witness: the amended theorem applied at concrete inputs. -/
theorem C2_client_side_scan_witness :
    ((adapter_list_devices 5 dW).2 = [Call.getManagedObjects]
      ∧ (adapter_list_devices 5 dW).1 = Except.ok (listDevicesScan dW.managed)
      ∧ ∀ p, p ∈ listDevicesScan dW.managed ↔
          ∃ o, (p, o) ∈ dW.managed
            ∧ (dictGet o.interfaces DEVICE_INTERFACE_BLUEZ5).isSome = true)
  ∧ ((adapter_find_device 4 dW "AA:AA:AA:AA:AA:AA" "Address").2
        = [Call.findDevice "AA:AA:AA:AA:AA:AA"]
      ∧ (adapter_list_devices 4 dW).2 = [Call.listDevices]) :=
  ⟨C2_client_side_scan.1 5 dW (by norm_num [BLUEZ4_VERSION]),
   C2_client_side_scan.2.2.2 4 dW "AA:AA:AA:AA:AA:AA" "Address"
     (by norm_num [BLUEZ4_VERSION])⟩

/-- Claim C3 (confirmed): for a property present in the daemon's dictionary,
`get_property(name)` returns exactly the daemon-held value (the one the full
dictionary read also yields), `get_property()` returns the full dictionary,
and `set_property(name, value)` first performs the read that determines the
current value's dbus type, then forwards exactly one SetProperty/Set call
carrying `translate_to_dbus_type(typeof, value)`. -/
theorem C3_property_access :
    ∀ env v d path n value ps cur,
      (adapter_get_property v d path none).1 = Except.ok (PropResult.dict ps) →
      dictGet ps n = some cur →
        (adapter_get_property v d path (some n)).1 = Except.ok (PropResult.value cur)
      ∧ (adapter_set_property env v d path n value).2
          = (adapter_get_property v d path (some n)).2
            ++ [if v ≤ BLUEZ4_VERSION
                then Call.setProperty n (translate_to_dbus_type env (dtypeOf cur) value)
                else Call.set ADAPTER_INTERFACE_BLUEZ5 n
                       (translate_to_dbus_type env (dtypeOf cur) value)]
      ∧ ((adapter_set_property env v d path n value).2.filter Call.isSetCall).length
          = 1 := by
  intro env v d path n value ps cur hall hcur
  by_cases hv : v ≤ BLUEZ4_VERSION
  · have hobj : d.objectProps path ADAPTER_INTERFACE_BLUEZ4 = Except.ok ps := by
      unfold adapter_get_property at hall
      rw [if_pos hv] at hall
      rcases h : d.objectProps path ADAPTER_INTERFACE_BLUEZ4 with e | ps1
      · rw [h] at hall
        simp at hall
      · rw [h] at hall
        simp at hall
        rw [hall]
    have hget : adapter_get_property v d path (some n)
        = (Except.ok (PropResult.value cur), [Call.getProperties]) := by
      unfold adapter_get_property
      rw [if_pos hv, hobj]
      simp [hcur]
    have hset : adapter_set_property env v d path n value
        = (Except.ok (), [Call.getProperties,
            Call.setProperty n (translate_to_dbus_type env (dtypeOf cur) value)]) := by
      unfold adapter_set_property
      rw [if_pos hv, hget]
      rfl
    refine ⟨by rw [hget], ?_, ?_⟩
    · rw [hset, hget, if_pos hv]
      rfl
    · rw [hset]
      simp [Call.isSetCall]
  · have hobj : d.objectProps path ADAPTER_INTERFACE_BLUEZ5 = Except.ok ps := by
      unfold adapter_get_property at hall
      rw [if_neg hv] at hall
      rcases h : d.objectProps path ADAPTER_INTERFACE_BLUEZ5 with e | ps1
      · rw [h] at hall
        simp at hall
      · rw [h] at hall
        simp at hall
        rw [hall]
    have hpg : d.propsGet path ADAPTER_INTERFACE_BLUEZ5 n = Except.ok cur := by
      unfold Daemon.propsGet
      rw [hobj]
      simp [hcur]
    have hget : adapter_get_property v d path (some n)
        = (Except.ok (PropResult.value cur), [Call.get ADAPTER_INTERFACE_BLUEZ5 n]) := by
      unfold adapter_get_property
      rw [if_neg hv]
      simp [hpg]
    have hset : adapter_set_property env v d path n value
        = (Except.ok (), [Call.get ADAPTER_INTERFACE_BLUEZ5 n,
            Call.set ADAPTER_INTERFACE_BLUEZ5 n
              (translate_to_dbus_type env (dtypeOf cur) value)]) := by
      unfold adapter_set_property
      rw [if_neg hv, hget]
      rfl
    refine ⟨by rw [hget], ?_, ?_⟩
    · rw [hset, hget, if_neg hv]
      rfl
    · rw [hset]
      simp [Call.isSetCall]

/-- Claim C3, witness: the theorem applied to the concrete adapter under
BlueZ 5 at property 'Powered'. -/
theorem C3_property_access_witness :
    ((adapter_get_property 5 dW "/org/bluez/hci0" none).1
        = Except.ok (PropResult.dict
            [("Address", DVal.str "00:11:22:33:44:55"), ("Powered", DVal.boolean true)]))
  ∧ ((adapter_get_property 5 dW "/org/bluez/hci0" (some "Powered")).1
        = Except.ok (PropResult.value (DVal.boolean true))
      ∧ (adapter_set_property envW 5 dW "/org/bluez/hci0" "Powered" (DVal.boolean false)).2
          = (adapter_get_property 5 dW "/org/bluez/hci0" (some "Powered")).2
            ++ [if (5 : ℚ) ≤ BLUEZ4_VERSION
                then Call.setProperty "Powered"
                       (translate_to_dbus_type envW (dtypeOf (DVal.boolean true))
                          (DVal.boolean false))
                else Call.set ADAPTER_INTERFACE_BLUEZ5 "Powered"
                       (translate_to_dbus_type envW (dtypeOf (DVal.boolean true))
                          (DVal.boolean false))]
      ∧ ((adapter_set_property envW 5 dW "/org/bluez/hci0" "Powered"
            (DVal.boolean false)).2.filter Call.isSetCall).length = 1) :=
  ⟨by decide,
   C3_property_access envW 5 dW "/org/bluez/hci0" "Powered" (DVal.boolean false)
     [("Address", DVal.str "00:11:22:33:44:55"), ("Powered", DVal.boolean true)]
     (DVal.boolean true) (by decide) (by decide)⟩

/-- Claim C4 (confirmed): the daemon version is determined once and cached,
so every later read returns the first result; and each constructor picks its
interface address by the single test `get_version() <= BLUEZ4_VERSION`,
BlueZ 4 names on one side and BlueZ 5 names on the other, as does each
versioned property read. -/
theorem C4_version_dispatch :
    (∀ p1 p2 c, (get_version p2 (get_version p1 c).2).1 = (get_version p1 c).1)
  ∧ (∀ v d path init tr, adapter_init v d path = (Except.ok init, tr) →
        init.addr = if v ≤ BLUEZ4_VERSION
          then ADAPTER_INTERFACE_BLUEZ4 else ADAPTER_INTERFACE_BLUEZ5)
  ∧ (∀ v, btdevice_init_addr v = if v ≤ BLUEZ4_VERSION
        then DEVICE_INTERFACE_BLUEZ4 else DEVICE_INTERFACE_BLUEZ5)
  ∧ (∀ v, btcontrol_init_addr v = if v ≤ BLUEZ4_VERSION
        then CONTROL_INTERFACE_BLUEZ4 else MEDIA_CONTROL_INTERFACE_BLUEZ5)
  ∧ (∀ v, btmanager_init_addr v = if v ≤ BLUEZ4_VERSION
        then MANAGER_INTERFACE_BLUEZ4 else DBUS_OBJ_MANAGER)
  ∧ (∀ v d path n, (adapter_get_property v d path (some n)).2
        = if v ≤ BLUEZ4_VERSION then [Call.getProperties]
          else [Call.get ADAPTER_INTERFACE_BLUEZ5 n]) := by
  refine ⟨?_, ?_, fun v => rfl, fun v => rfl, fun v => rfl, ?_⟩
  · intro p1 p2 c
    rcases c with ⟨_ | ver⟩ <;> simp [get_version]
  · intro v d path init tr h
    unfold adapter_init at h
    by_cases hv : v ≤ BLUEZ4_VERSION
    · rw [if_pos hv] at h
      rw [if_pos hv]
      rcases hobj : d.objectProps path ADAPTER_INTERFACE_BLUEZ4 with e | ps
      · rw [hobj] at h
        simp at h
      · rw [hobj] at h
        simp at h
        rw [← h.1]
    · rw [if_neg hv] at h
      rw [if_neg hv]
      rcases hobj : d.objectProps path ADAPTER_INTERFACE_BLUEZ5 with e | ps
      · rw [hobj] at h
        simp at h
      · rw [hobj] at h
        simp at h
        rw [← h.1]
  · intro v d path n
    by_cases hv : v ≤ BLUEZ4_VERSION
    · rw [if_pos hv]
      unfold adapter_get_property
      rw [if_pos hv]
      rcases hobj : d.objectProps path ADAPTER_INTERFACE_BLUEZ4 with e | ps
      · rfl
      · rcases h2 : dictGet ps n with _ | val <;> simp [h2]
    · rw [if_neg hv]
      unfold adapter_get_property
      rw [if_neg hv]
      rcases hpg : d.propsGet path ADAPTER_INTERFACE_BLUEZ5 n with e | val <;> simp [hpg]

/-- Claim C4, witness: the dispatch theorem applied at version 5 and the
concrete daemon. -/
theorem C4_version_dispatch_witness :
    (adapter_init 5 dW "/org/bluez/hci0"
        = (Except.ok adapterInitW, [Call.getAll ADAPTER_INTERFACE_BLUEZ5]))
  ∧ (adapterInitW.addr
      = if (5 : ℚ) ≤ BLUEZ4_VERSION
        then ADAPTER_INTERFACE_BLUEZ4 else ADAPTER_INTERFACE_BLUEZ5) :=
  ⟨by decide,
   C4_version_dispatch.2.1 5 dW "/org/bluez/hci0" adapterInitW
     [Call.getAll ADAPTER_INTERFACE_BLUEZ5] (by decide)⟩

/-- Claim C5, counterexample: add-then-remove does not return `_signals` to
its prior state when the signal already had an entry before the add — the
pre-existing entry is lost. -/
theorem C5_counterexample :
    (remove_signal_receiver
        (add_signal_receiver stPre "org.bluez.Adapter" "/org/bluez/hci0" 1
            "PropertyChanged" 1 none).2.1
        "org.bluez.Adapter" "PropertyChanged").2.1 ≠ stPre := by
  decide

/-- Claim C5, amended: for a registered signal name s,
`add_signal_receiver` stores exactly one entry for s (a second add replaces
the first); `remove_signal_receiver(s)` after `add_signal_receiver(..., s,
...)` leaves `_signals` equal to the prior state with s's entry removed, so
the round-trip restores the prior state exactly when s had no entry before
the add; `remove_signal_receiver` of a registered but never-added name
leaves the state unchanged. -/
theorem C5_signal_bookkeeping :
    ∀ st a p cb ua cb2 ua2 sig,
      sig ∈ st.signal_names →
      (st.signals.map Prod.fst).Nodup →
        dictGet (add_signal_receiver st a p cb sig ua none).2.1.signals sig
          = some { signal := sig, user_callback := cb, user_arg := ua }
      ∧ countKey (add_signal_receiver st a p cb sig ua none).2.1.signals sig = 1
      ∧ (add_signal_receiver (add_signal_receiver st a p cb sig ua none).2.1
            a p cb2 sig ua2 none).2.1
          = (add_signal_receiver st a p cb2 sig ua2 none).2.1
      ∧ (remove_signal_receiver (add_signal_receiver st a p cb sig ua none).2.1
            a sig).2.1.signals
          = dictPop st.signals sig
      ∧ (dictGet st.signals sig = none →
          (remove_signal_receiver (add_signal_receiver st a p cb sig ua none).2.1
              a sig).2.1
            = st)
      ∧ (dictGet st.signals sig = none → (remove_signal_receiver st a sig).2.1 = st) := by
  intro st a p cb ua cb2 ua2 sig hmem hnd
  have hadd : (add_signal_receiver st a p cb sig ua none).2.1
      = { st with signals := dictSet st.signals sig ⟨sig, cb, ua⟩ } := by
    simp [add_signal_receiver, hmem]
  have hrem : (remove_signal_receiver (add_signal_receiver st a p cb sig ua none).2.1
      a sig).2.1.signals = dictPop st.signals sig := by
    rw [hadd]
    simp [remove_signal_receiver, hmem, dictGet_dictSet_self, dictPop_dictSet]
  refine ⟨?_, ?_, ?_, hrem, ?_, ?_⟩
  · rw [hadd]
    exact dictGet_dictSet_self st.signals sig _
  · rw [hadd]
    exact countKey_dictSet st.signals sig _ hnd
  · rw [hadd]
    simp [add_signal_receiver, hmem, dictSet_dictSet]
  · intro hnone
    have : (remove_signal_receiver (add_signal_receiver st a p cb sig ua none).2.1
        a sig).2.1 = { st with signals := dictPop st.signals sig } := by
      rw [hadd]
      simp [remove_signal_receiver, hmem, dictGet_dictSet_self, dictPop_dictSet]
    rw [this, dictPop_of_none st.signals sig hnone]
  · intro hnone
    simp [remove_signal_receiver, hmem, hnone]

/-- Claim C5, witness: the amended bookkeeping theorem applied to the
concrete registered-but-empty state. -/
theorem C5_signal_bookkeeping_witness :
    dictGet (add_signal_receiver stReg "org.bluez.Adapter" "/org/bluez/hci0" 7
        "PropertyChanged" 9 none).2.1.signals "PropertyChanged"
      = some { signal := "PropertyChanged", user_callback := 7, user_arg := 9 }
  ∧ countKey (add_signal_receiver stReg "org.bluez.Adapter" "/org/bluez/hci0" 7
        "PropertyChanged" 9 none).2.1.signals "PropertyChanged" = 1
  ∧ (add_signal_receiver (add_signal_receiver stReg "org.bluez.Adapter"
        "/org/bluez/hci0" 7 "PropertyChanged" 9 none).2.1
        "org.bluez.Adapter" "/org/bluez/hci0" 8 "PropertyChanged" 10 none).2.1
      = (add_signal_receiver stReg "org.bluez.Adapter" "/org/bluez/hci0" 8
          "PropertyChanged" 10 none).2.1
  ∧ (remove_signal_receiver (add_signal_receiver stReg "org.bluez.Adapter"
        "/org/bluez/hci0" 7 "PropertyChanged" 9 none).2.1
        "org.bluez.Adapter" "PropertyChanged").2.1.signals
      = dictPop stReg.signals "PropertyChanged"
  ∧ (dictGet stReg.signals "PropertyChanged" = none →
      (remove_signal_receiver (add_signal_receiver stReg "org.bluez.Adapter"
          "/org/bluez/hci0" 7 "PropertyChanged" 9 none).2.1
          "org.bluez.Adapter" "PropertyChanged").2.1
        = stReg)
  ∧ (dictGet stReg.signals "PropertyChanged" = none →
      (remove_signal_receiver stReg "org.bluez.Adapter" "PropertyChanged").2.1 = stReg) :=
  C5_signal_bookkeeping stReg "org.bluez.Adapter" "/org/bluez/hci0" 7 9 8 10
    "PropertyChanged" (by decide) (by decide)

/-- Claim C6 (code bug): `BTControl._init_properties` enumerates the
property names from 'org.bluez.MediaControl1', but
`BTControl.get_property` issues its Properties.Get against
'org.bluez.Device1' (the `DEVICE_INTERFACE_BLUEZ5` constant inherited from
`BTGenericDevice`), so a property enumerated at construction (here
'Player') is fetched from the wrong interface and the daemon rejects it. -/
theorem C6_interface_mismatch :
    (control_init_properties dW "/org/bluez/hci0/dev_AA").1
      = Except.ok ["Connected", "Player"]
  ∧ (control_init_properties dW "/org/bluez/hci0/dev_AA").2
      = [Call.getAll MEDIA_CONTROL_INTERFACE_BLUEZ5]
  ∧ (control_get_property 5 dW "/org/bluez/hci0/dev_AA" (some "Player")).2
      = [Call.get DEVICE_INTERFACE_BLUEZ5 "Player"]
  ∧ (control_get_property 5 dW "/org/bluez/hci0/dev_AA" (some "Player")).1
      = Except.error (PyErr.dbusError ErrOrigin.daemon
          "org.freedesktop.DBus.Error.InvalidArgs")
  ∧ DEVICE_INTERFACE_BLUEZ5 ≠ MEDIA_CONTROL_INTERFACE_BLUEZ5 := by
  decide

/-- Claim C7, counterexample: public operations do read and write mutable
state kept inside this repository's objects — `add_signal_receiver` changes
the object's `_signals` dict, and `get_version` writes the process-wide
cached version. -/
theorem C7_counterexample :
    (add_signal_receiver stReg "org.bluez.Adapter" "/org/bluez/hci0" 0
        "PropertyChanged" 0 none).2.1 ≠ stReg
  ∧ (get_version 5 { version := none }).2 ≠ { version := none } := by
  decide

/-- Claim C7, amended: the entities are remote objects identified by object
paths and property state lives in the daemon, but the repository's objects
do hold mutable local state: the `_signals` subscription dict, which
`add_signal_receiver` extends (changing the object), and the cached daemon
version, which the first `get_version` call writes. -/
theorem C7_local_state :
    (∀ st a p cb sig ua, sig ∈ st.signal_names → dictGet st.signals sig = none →
        (add_signal_receiver st a p cb sig ua none).2.1.signals
          = st.signals ++ [(sig, { signal := sig, user_callback := cb, user_arg := ua })]
      ∧ (add_signal_receiver st a p cb sig ua none).2.1 ≠ st)
  ∧ (∀ q, (get_version q { version := none }).2 = { version := some q }) := by
  constructor
  · intro st a p cb sig ua hmem hnone
    have hadd : (add_signal_receiver st a p cb sig ua none).2.1.signals
        = st.signals ++ [(sig, { signal := sig, user_callback := cb, user_arg := ua })] := by
      simp [add_signal_receiver, hmem]
      exact dictSet_of_none st.signals sig _ hnone
    refine ⟨hadd, ?_⟩
    intro heq
    have hlen := congrArg (fun s => s.signals.length) heq
    simp only [hadd] at hlen
    simp at hlen
  · intro q
    rfl

/-- Claim C7, witness: the amended theorem applied to the concrete
registered-but-empty state. -/
theorem C7_local_state_witness :
    ((add_signal_receiver stReg "org.bluez.Adapter" "/org/bluez/hci0" 3
        "PropertyChanged" 4 none).2.1.signals
      = stReg.signals
        ++ [("PropertyChanged",
              { signal := "PropertyChanged", user_callback := 3, user_arg := 4 })]
    ∧ (add_signal_receiver stReg "org.bluez.Adapter" "/org/bluez/hci0" 3
        "PropertyChanged" 4 none).2.1 ≠ stReg)
  ∧ (get_version 5 { version := none }).2 = { version := some 5 } :=
  ⟨C7_local_state.1 stReg "org.bluez.Adapter" "/org/bluez/hci0" 3 "PropertyChanged" 4
      (by decide) (by decide),
   C7_local_state.2 5⟩

/-- Claim C8 (confirmed): under BlueZ 5 every call to
`BTManager.get_property`, with or without a name, raises before returning
any result — the branch assigns an attribute on the plain dict
`adapters = {}`, which is an AttributeError for every input. -/
theorem C8_manager_get_property_raises :
    ∀ v d name, BLUEZ4_VERSION < v →
      (manager_get_property v d name).1
        = Except.error (PyErr.attributeError "dict object has no attribute Adapters") := by
  intro v d name hv
  unfold manager_get_property
  rw [if_neg (not_le.mpr hv)]
  unfold manager_list_adapters
  rw [if_neg (not_le.mpr hv)]

/-- Claim C8, witness: the theorem applied at version 5, both with and
without a property name. -/
theorem C8_manager_get_property_raises_witness :
    (manager_get_property 5 dW (some "Adapters")).1
      = Except.error (PyErr.attributeError "dict object has no attribute Adapters")
  ∧ (manager_get_property 5 dW none).1
      = Except.error (PyErr.attributeError "dict object has no attribute Adapters") :=
  ⟨C8_manager_get_property_raises 5 dW (some "Adapters") (by norm_num [BLUEZ4_VERSION]),
   C8_manager_get_property_raises 5 dW none (by norm_num [BLUEZ4_VERSION])⟩

/-- Claim C9 (confirmed): for an attribute name neither in the instance's
`__dict__` nor in its `_properties` list, `BTInterface.__getattr__` falls
off the end and the access yields Python None instead of an
AttributeError. -/
theorem C9_getattr_none :
    ∀ o name, dictGet o.attrs name = none →
      (∀ ps, o.properties = some ps → name ≠ "_properties" ∧ name ∉ ps) →
      btinterface_getattr o name = AttrResult.pyNone := by
  intro o name hattr hprops
  unfold btinterface_getattr
  rw [hattr]
  rcases hp : o.properties with _ | ps
  · rfl
  · have h := hprops ps hp
    simp [h.1, h.2]

/-- Claim C9, witness: a misspelled property name on an object whose
`_properties` holds 'Address' yields Python None. -/
theorem C9_getattr_none_witness :
    btinterface_getattr
        { attrs := [("adapter_path", DVal.str "/org/bluez/hci0")],
          properties := some ["Address", "Powered"] }
        "Adress"
      = AttrResult.pyNone :=
  C9_getattr_none
    { attrs := [("adapter_path", DVal.str "/org/bluez/hci0")],
      properties := some ["Address", "Powered"] }
    "Adress" (by decide)
    (by intro ps hp; cases hp; exact ⟨by decide, by decide⟩)

/-- Claim C10 (confirmed): under BlueZ 5 `BTControl.is_connected` fetches
the 'Connected' property, discards the result and returns Python None
whatever the property's value was; under BlueZ 4 it returns the daemon's
`IsConnected()` result. -/
theorem C10_is_connected :
    (∀ v d path val, BLUEZ4_VERSION < v →
        d.propsGet path DEVICE_INTERFACE_BLUEZ5 "Connected" = Except.ok val →
        (control_is_connected v d path).1 = Except.ok none)
  ∧ (∀ v d path val, v ≤ BLUEZ4_VERSION → d.isConnected4 = Except.ok val →
        (control_is_connected v d path).1 = Except.ok (some val)) := by
  constructor
  · intro v d path val hv hget
    unfold control_is_connected
    rw [if_neg (not_le.mpr hv)]
    unfold control_get_property
    rw [if_neg (not_le.mpr hv)]
    simp [hget]
  · intro v d path val hv hic
    unfold control_is_connected
    rw [if_pos hv, hic]

/-- Claim C10, witness: the theorem applied at the concrete daemon, whose
'Connected' device property is true and whose BlueZ 4 `IsConnected` result
is true, under versions 5 and 4. -/
theorem C10_is_connected_witness :
    (dW.propsGet "/org/bluez/hci0/dev_AA" DEVICE_INTERFACE_BLUEZ5 "Connected"
        = Except.ok (DVal.boolean true)
      ∧ (control_is_connected 5 dW "/org/bluez/hci0/dev_AA").1 = Except.ok none)
  ∧ (control_is_connected 4 dW "/org/bluez/hci0/dev_AA").1
      = Except.ok (some (DVal.boolean true)) :=
  ⟨⟨by decide,
    C10_is_connected.1 5 dW "/org/bluez/hci0/dev_AA" (DVal.boolean true)
      (by norm_num [BLUEZ4_VERSION]) (by decide)⟩,
   C10_is_connected.2 4 dW "/org/bluez/hci0/dev_AA" (DVal.boolean true)
     (by norm_num [BLUEZ4_VERSION]) rfl⟩

end BtManager
